import Mathlib

/-!
Verification development for the metering-service proxy
(src/resources/functions/metering-service.py).

The service is a thin relay: operation handlers validate and shape a
payload dictionary, then `make_api_call` issues an HTTPS request to the
upstream metering platform, decodes the (possibly gzip-compressed)
response body, classifies 4xx/5xx statuses and retries server errors up
to a bounded attempt count.

Modelling conventions:
- Python JSON-ish values are the inductive `JsonVal`; Python dicts are
  association lists `Dict` (Python dicts are insertion-ordered, and
  assignment of a fresh key appends at the end, which `Dict.set` and
  `Dict.setdefault` reproduce).
- The external libraries `json` and `gzip` are parameters: `parse`
  stands for `json.loads` (returning `none` on `JSONDecodeError`),
  `gunzip` for gzip decompression, `JsonVal.dumps` mirrors `json.dumps`
  (string escaping elided; no property here depends on it).
- The wall clock is passed explicitly (`now` in seconds,
  `nowMillis` in milliseconds).
- The upstream is a function `responses : Nat → HttpResponse` giving the
  response observed on the i-th attempt (attempts are numbered from 1,
  exactly as the `attempt` counter in the source).
- A handler is modelled up to its outbound call: it either raises a
  `BadRequestError` (the spec's `ValidationError`), represented by
  `Except.error` with the exact message string of the source, or
  produces the `OutboundCall` (method, path, payload) that it passes to
  `make_api_call`. An `Except.error` result therefore means no outbound
  upstream call is made.
-/

/-- A JSON-ish Python value: `None`, booleans, numbers (modelled as
integers; no claim involves fractional values), strings, lists and
(insertion-ordered) dicts. -/
inductive JsonVal where
  | null
  | bool (b : Bool)
  | num (n : Int)
  | str (s : String)
  | arr (xs : List JsonVal)
  | obj (fields : List (String × JsonVal))

/-- Python `v is None`. -/
def JsonVal.isNull : JsonVal → Bool
  | .null => true
  | _ => false

/-- Python truthiness of a `JsonVal`: `None`, `False`, `0`, `""`, `[]`
and the empty dict are falsy, everything else is truthy.  Used by
`payload_str`, which the source guards with `if payload`. -/
def JsonVal.truthy : JsonVal → Bool
  | .null => false
  | .bool b => b
  | .num n => n != 0
  | .str s => s != ""
  | .arr xs => !xs.isEmpty
  | .obj fs => !fs.isEmpty

mutual

/-- Model of `json.dumps` with the default separators; string escaping
is elided (no claim depends on the escaped form). -/
def JsonVal.dumps : JsonVal → String
  | .null => "null"
  | .bool true => "true"
  | .bool false => "false"
  | .num n => toString n
  | .str s => "\"" ++ s ++ "\""
  | .arr xs => "[" ++ JsonVal.dumpsArr xs ++ "]"
  | .obj fs => "\x7b" ++ JsonVal.dumpsObj fs ++ "\x7d"

/-- Comma-separated serialization of a JSON array's elements. -/
def JsonVal.dumpsArr : List JsonVal → String
  | [] => ""
  | [x] => JsonVal.dumps x
  | x :: y :: xs => JsonVal.dumps x ++ ", " ++ JsonVal.dumpsArr (y :: xs)

/-- Comma-separated serialization of a JSON object's fields. -/
def JsonVal.dumpsObj : List (String × JsonVal) → String
  | [] => ""
  | [(k, v)] => "\"" ++ k ++ "\": " ++ JsonVal.dumps v
  | (k, v) :: p :: xs =>
      "\"" ++ k ++ "\": " ++ JsonVal.dumps v ++ ", " ++ JsonVal.dumpsObj (p :: xs)

end

/-- A Python dict with string keys, as an insertion-ordered association
list. -/
abbrev Dict := List (String × JsonVal)

/-- Python `k in d`. -/
def Dict.hasKey (d : Dict) (k : String) : Bool :=
  d.any (fun kv => kv.1 == k)

/-- The value stored for key `k`, if any (first occurrence). -/
def Dict.get? (d : Dict) (k : String) : Option JsonVal :=
  (d.find? (fun kv => kv.1 == k)).map (fun kv => kv.2)

/-- Python `d.get(k, dflt)`: the stored value when the key is present,
otherwise the default. -/
def Dict.get (d : Dict) (k : String) (dflt : JsonVal) : JsonVal :=
  (d.get? k).getD dflt

/-- Python `d[k] = v`: replace the value in place when the key exists,
otherwise append the pair at the end. -/
def Dict.set (d : Dict) (k : String) (v : JsonVal) : Dict :=
  if d.hasKey k then d.map (fun kv => if kv.1 == k then (k, v) else kv)
  else d ++ [(k, v)]

/-- Python `d.setdefault(k, v)`: unchanged when the key exists,
otherwise append the pair at the end. -/
def Dict.setdefault (d : Dict) (k : String) (v : JsonVal) : Dict :=
  if d.hasKey k then d else d ++ [(k, v)]

/-- An upstream HTTP response as `make_api_call` observes it: the status
code, the `Content-Encoding` header (`none` when absent, mirroring
`response.getheader`) and the raw body text. -/
structure HttpResponse where
  status : Nat
  contentEncoding : Option String
  body : String
deriving DecidableEq

/-- The result of `decode_response_body`: either a parsed JSON value or,
when the body does not parse as JSON, the raw body text. -/
inductive Decoded where
  | json (v : JsonVal)
  | text (s : String)

/-- Model of `decode_response_body` (metering-service.py lines 135-152):
decompress when the response declares `Content-Encoding: gzip`; an empty
body yields the empty dict; otherwise parse as JSON, and on
`JSONDecodeError` return the raw (post-decompression) text. -/
def decode_response_body (gunzip : String → String) (parse : String → Option JsonVal)
    (response : HttpResponse) : Decoded :=
  let response_body :=
    if response.contentEncoding = some "gzip" then gunzip response.body
    else response.body
  if response_body ≠ "" then
    match parse response_body with
    | some v => .json v
    | none => .text response_body
  else .json (.obj [])

/-- Model of line 166, `json.dumps(payload) if payload else None`:
the request body is the serialized payload when the payload is truthy,
and no body at all otherwise (note the Python truthiness test, not a
presence test). -/
def payload_str (payload : Option JsonVal) : Option String :=
  match payload with
  | some v => if v.truthy then some (JsonVal.dumps v) else none
  | none => none

/-- Model of `urllib.parse.urlencode` on an ordered mapping
(percent-escaping elided; no claim depends on it). -/
def urlencode (params : List (String × String)) : String :=
  String.intercalate "&" (params.map (fun kv => kv.1 ++ "=" ++ kv.2))

/-- An error escaping `make_api_call`: `badRequest` models
`BadRequestError(response_body)` raised on a 4xx status, `serverError`
models `RuntimeError(f"Server error (status): (body)")` raised on a
5xx status (carrying the status and the decoded body that the message
interpolates). -/
inductive ApiError where
  | badRequest (detail : Decoded)
  | serverError (status : Nat) (detail : Decoded)

/-- How the `make_api_call` retry loop ends: a normal return of the
decoded body, a raised error, or (only possible when `max_retries` is
zero, so the `while` body never runs) Python's implicit `None`. -/
inductive CallResult where
  | returned (body : Decoded)
  | raised (e : ApiError)
  | noneReturn

/-- The `while attempt <= max_retries` loop of `make_api_call`
(lines 174-205), together with the number of attempts performed.
`attempt` is the 1-based attempt counter; `remaining` is the number of
attempts the budget still allows, i.e. `max_retries - attempt + 1`, so
the source's post-increment test `attempt <= max_retries` becomes the
test `r = 0` on the predecessor of `remaining`.  On a 4xx status the
raised `BadRequestError` is not caught by the `except RuntimeError`
clause, so it escapes at once; on a 5xx status the `RuntimeError` is
caught and the loop retries while budget remains, re-raising the last
error once it is exhausted. -/
def apiLoop (gunzip : String → String) (parse : String → Option JsonVal)
    (responses : Nat → HttpResponse) (attempt remaining : Nat) : CallResult × Nat :=
  match remaining with
  | 0 => (.noneReturn, 0)
  | r + 1 =>
    let response := responses attempt
    let response_body := decode_response_body gunzip parse response
    if 400 ≤ response.status ∧ response.status < 500 then
      (.raised (.badRequest response_body), 1)
    else if 500 ≤ response.status then
      if r = 0 then (.raised (.serverError response.status response_body), 1)
      else
        let rest := apiLoop gunzip parse responses (attempt + 1) r
        (rest.1, rest.2 + 1)
    else (.returned response_body, 1)

/-- The request `make_api_call` sends on each attempt: method, path
(with the encoded query string appended when query parameters are
given) and the optional serialized body. -/
structure OutRequest where
  method : String
  path : String
  body : Option String
deriving DecidableEq

/-- The complete observable behaviour of one `make_api_call`
invocation: the request it sends, how the retry loop ends, and how many
attempts it performed. -/
structure CallOutcome where
  request : OutRequest
  result : CallResult
  attempts : Nat

/-- Model of `make_api_call` (lines 154-205).  The source gives
`max_retries` the default value 3; every caller in the source uses that
default, and the theorems below instantiate it to 3.  The fixed headers
(`Content-Type`, `Accept-Encoding: gzip`, `x-api-key`) do not vary and
are not modelled. -/
def make_api_call (gunzip : String → String) (parse : String → Option JsonVal)
    (method path : String) (payload : Option JsonVal)
    (params : Option (List (String × String)))
    (responses : Nat → HttpResponse) (max_retries : Nat) : CallOutcome :=
  let body := payload_str payload
  let fullPath :=
    match params with
    | some ps => path ++ "?" ++ urlencode ps
    | none => path
  let lp := apiLoop gunzip parse responses 1 max_retries
  ⟨⟨method, fullPath, body⟩, lp.1, lp.2⟩

/-- The outbound call a handler hands to `make_api_call`: method, path
and optional JSON payload. -/
structure OutboundCall where
  method : String
  path : String
  payload : Option JsonVal

/-- Model of the `create_meter` handler (lines 47-54) up to its
outbound call: require `label`, `meterApiName`, `meterType`, then POST
the payload to `/meters`.  `Except.error` is the raised
`BadRequestError`; it means no outbound call is made. -/
def create_meter (payload : Dict) : Except String OutboundCall :=
  if !(["label", "meterApiName", "meterType"].all (payload.hasKey ·)) then
    .error "Required properties missing for create meter"
  else .ok ⟨"POST", "/meters", some (.obj payload)⟩

/-- Model of the `update_meter` handler (lines 68-76) up to its
outbound call: same required fields as create, then `id` defaults to
the path's meter id and the payload is PUT to `/meters`. -/
def update_meter (meter_id : String) (payload : Dict) : Except String OutboundCall :=
  if !(["label", "meterApiName", "meterType"].all (payload.hasKey ·)) then
    .error "Required properties missing for update meter"
  else .ok ⟨"PUT", "/meters", some (.obj (payload.setdefault "id" (.str meter_id)))⟩

/-- Model of the `cancel_usage` handler (lines 112-120) up to its
outbound call: require `meterApiName`, `id`, `ingestionTimeRange`, then
overwrite `type` with `by_property_filter_out` and POST to
`/ingest-snapshot/custom-filtering-rules`. -/
def cancel_usage (payload : Dict) : Except String OutboundCall :=
  if !(["meterApiName", "id", "ingestionTimeRange"].all (payload.hasKey ·)) then
    .error "Required properties missing for cancelUsage request"
  else
    .ok ⟨"POST", "/ingest-snapshot/custom-filtering-rules",
      some (.obj (payload.set "type" (.str "by_property_filter_out")))⟩

/-- Model of the `fetch_usage` handler (lines 84-110) up to its
outbound call.  `now` is `int(time.time())`; `query` is the query-string
dict; `fetchedMeter` is the decoded JSON object that the internal
`fetch_meter` call returns in its `data` field (the handler reads
`meter_response.get('data', ...).get('meterApiName')`).  When the query
has no `meterApiName` (Python `payload.get(...) is None`, i.e. absent
or `None`-valued), the name is resolved from `fetchedMeter`, failing
with `BadRequestError` when that also yields `None`; then the time
range defaults are applied and the payload POSTed to `/usage`. -/
def fetch_usage (now : Int) (query : Dict) (fetchedMeter : Dict) :
    Except String OutboundCall :=
  let resolved : Except String Dict :=
    if (query.get "meterApiName" .null).isNull then
      let meter_api_name := fetchedMeter.get "meterApiName" .null
      if meter_api_name.isNull then
        .error "meterApiName could not be fetched from meterId"
      else .ok (query.set "meterApiName" meter_api_name)
    else .ok query
  match resolved with
  | .error e => .error e
  | .ok payload =>
    let timeRange : JsonVal := .obj
      [("startTimeInSeconds", payload.get "startTimeInSeconds" (.num (now - 24 * 60 * 60))),
       ("endTimeInSeconds", payload.get "endTimeInSeconds" .null)]
    let payload := payload.setdefault "timeGroupingInterval" (.str "DAY")
    let payload := payload.setdefault "timeRange" timeRange
    .ok ⟨"POST", "/usage", some (.obj payload)⟩

/-- Model of the `ingest` handler (lines 122-133) up to its outbound
call.  `nowMillis` is `int(round(time.time() * 1000))`; `detail` is
`event['detail']`.  The result is `none` exactly when one of the three
subscripted keys is missing (Python would raise `KeyError`).  Note the
source excludes only `meterApiName` and `meterValue` from `dimensions`
— `tenantId` is kept. -/
def ingest (nowMillis : Int) (detail : Dict) : Option OutboundCall :=
  match detail.get? "tenantId", detail.get? "meterApiName", detail.get? "meterValue" with
  | some tenantId, some apiName, some meterValue =>
    some ⟨"POST", "/ingest", some (.obj
      [("customerId", tenantId),
       ("meterApiName", apiName),
       ("meterValue", meterValue),
       ("meterTimeInMillis", .num nowMillis),
       ("dimensions", .obj (detail.filter
         (fun kv => !(["meterApiName", "meterValue"].contains kv.1))))])⟩
  | _, _, _ => none

/-! Helper lemmas about `Dict` lookups and the retry loop. -/

theorem Dict.get?_eq_none (d : Dict) (k : String) (h : d.hasKey k = false) :
    d.get? k = none := by
  induction d with
  | nil => rfl
  | cons hd tl ih =>
    simp only [Dict.hasKey, List.any_cons, Bool.or_eq_false_iff] at h
    simp only [Dict.get?, List.find?_cons, h.1]
    exact ih h.2

theorem Dict.get?_append (d e : Dict) (k : String) :
    (d ++ e).get? k = (d.get? k).or (e.get? k) := by
  induction d with
  | nil => simp [Dict.get?]
  | cons hd tl ih =>
    cases hc : (hd.1 == k) with
    | true => simp [Dict.get?, List.find?_cons, hc]
    | false =>
      simp only [Dict.get?, List.cons_append, List.find?_cons, hc] at ih ⊢
      exact ih

theorem Dict.hasKey_eq_isSome (d : Dict) (k : String) :
    d.hasKey k = (d.get? k).isSome := by
  induction d with
  | nil => rfl
  | cons hd tl ih =>
    cases hc : (hd.1 == k) with
    | true => simp [Dict.hasKey, Dict.get?, List.find?_cons, hc]
    | false =>
      simp only [Dict.hasKey, Dict.get?, List.any_cons, List.find?_cons, hc,
        Bool.false_or] at ih ⊢
      exact ih

theorem Dict.get?_replace (d : Dict) (k k2 : String) (v : JsonVal) (h : k ≠ k2) :
    Dict.get? (d.map (fun kv : String × JsonVal => if kv.1 == k2 then (k2, v) else kv)) k =
      Dict.get? d k := by
  induction d with
  | nil => rfl
  | cons hd tl ih =>
    cases hc : (hd.1 == k2) with
    | true =>
      have hk2 : (k2 == k) = false := by
        simp only [beq_eq_false_iff_ne]
        exact fun he => h he.symm
      have hk1 : (hd.1 == k) = false := by
        simp only [beq_iff_eq] at hc
        simp only [beq_eq_false_iff_ne, hc]
        exact fun he => h he.symm
      simp only [List.map_cons, hc, if_true] at ih ⊢
      simp [Dict.get?, List.find?_cons, hk1, hk2] at ih ⊢
      exact ih
    | false =>
      simp only [List.map_cons, hc] at ih ⊢
      cases hck : (hd.1 == k) with
      | true => simp [Dict.get?, List.find?_cons, hck]
      | false =>
        simp [Dict.get?, List.find?_cons, hck] at ih ⊢
        exact ih

theorem Dict.get?_replace_self (d : Dict) (k : String) (v : JsonVal) (h : d.hasKey k = true) :
    Dict.get? (d.map (fun kv : String × JsonVal => if kv.1 == k then (k, v) else kv)) k =
      some v := by
  induction d with
  | nil => cases h
  | cons hd tl ih =>
    cases hc : (hd.1 == k) with
    | true =>
      simp only [List.map_cons, hc, if_true]
      simp [Dict.get?, List.find?_cons]
    | false =>
      simp only [Dict.hasKey, List.any_cons, hc, Bool.false_or] at h
      simp only [List.map_cons, hc, if_false]
      simp [Dict.get?, List.find?_cons, hc] at ih ⊢
      exact ih h

theorem Dict.get?_set_self (d : Dict) (k : String) (v : JsonVal) :
    Dict.get? (d.set k v) k = some v := by
  unfold Dict.set
  cases h : d.hasKey k with
  | true =>
    simp only [if_true]
    exact Dict.get?_replace_self d k v h
  | false =>
    simp only [Bool.false_eq_true, if_false]
    rw [Dict.get?_append, Dict.get?_eq_none d k h]
    simp [Dict.get?, List.find?_cons]

theorem Dict.get?_singleton_ne (k k2 : String) (v : JsonVal) (h : k ≠ k2) :
    Dict.get? [(k2, v)] k = none := by
  have : (k2 == k) = false := by
    simp only [beq_eq_false_iff_ne]
    exact fun he => h he.symm
  simp [Dict.get?, List.find?_cons, this]

theorem Dict.get?_set_ne (d : Dict) (k k2 : String) (v : JsonVal) (h : k ≠ k2) :
    Dict.get? (d.set k2 v) k = Dict.get? d k := by
  unfold Dict.set
  cases hk : d.hasKey k2 with
  | true =>
    simp only [if_true]
    exact Dict.get?_replace d k k2 v h
  | false =>
    simp only [Bool.false_eq_true, if_false]
    rw [Dict.get?_append, Dict.get?_singleton_ne k k2 v h]
    cases Dict.get? d k <;> rfl

theorem Dict.get?_setdefault_ne (d : Dict) (k k2 : String) (v : JsonVal) (h : k ≠ k2) :
    Dict.get? (d.setdefault k2 v) k = Dict.get? d k := by
  unfold Dict.setdefault
  cases hk : d.hasKey k2 with
  | true => simp only [if_true]
  | false =>
    simp only [Bool.false_eq_true, if_false]
    rw [Dict.get?_append, Dict.get?_singleton_ne k k2 v h]
    cases Dict.get? d k <;> rfl

theorem Dict.get?_setdefault_absent (d : Dict) (k : String) (v : JsonVal)
    (h : d.hasKey k = false) :
    Dict.get? (d.setdefault k v) k = some v := by
  unfold Dict.setdefault
  simp only [h, Bool.false_eq_true, if_false]
  rw [Dict.get?_append, Dict.get?_eq_none d k h]
  simp [Dict.get?, List.find?_cons]

theorem Dict.hasKey_set_ne (d : Dict) (k k2 : String) (v : JsonVal) (h : k ≠ k2) :
    Dict.hasKey (d.set k2 v) k = d.hasKey k := by
  rw [Dict.hasKey_eq_isSome, Dict.hasKey_eq_isSome, Dict.get?_set_ne d k k2 v h]

theorem Dict.hasKey_setdefault_ne (d : Dict) (k k2 : String) (v : JsonVal) (h : k ≠ k2) :
    Dict.hasKey (d.setdefault k2 v) k = d.hasKey k := by
  rw [Dict.hasKey_eq_isSome, Dict.hasKey_eq_isSome, Dict.get?_setdefault_ne d k k2 v h]

theorem apiLoop_client (gunzip : String → String) (parse : String → Option JsonVal)
    (responses : Nat → HttpResponse) (attempt : Nat) :
    ∀ remaining : Nat, remaining ≠ 0 →
      400 ≤ (responses attempt).status → (responses attempt).status < 500 →
      apiLoop gunzip parse responses attempt remaining =
        (.raised (.badRequest (decode_response_body gunzip parse (responses attempt))), 1)
  | 0, hn, _, _ => absurd rfl hn
  | r + 1, _, h1, h2 => by
      unfold apiLoop
      rw [if_pos ⟨h1, h2⟩]

theorem apiLoop_success (gunzip : String → String) (parse : String → Option JsonVal)
    (responses : Nat → HttpResponse) (attempt : Nat) :
    ∀ remaining : Nat, remaining ≠ 0 → (responses attempt).status < 400 →
      apiLoop gunzip parse responses attempt remaining =
        (.returned (decode_response_body gunzip parse (responses attempt)), 1)
  | 0, hn, _ => absurd rfl hn
  | r + 1, _, h => by
      unfold apiLoop
      rw [if_neg (by omega), if_neg (by omega)]

theorem apiLoop_all_server_error (gunzip : String → String) (parse : String → Option JsonVal)
    (responses : Nat → HttpResponse) (h : ∀ i, 500 ≤ (responses i).status) :
    ∀ (r attempt : Nat),
      apiLoop gunzip parse responses attempt (r + 1) =
        (.raised (.serverError (responses (attempt + r)).status
          (decode_response_body gunzip parse (responses (attempt + r)))), r + 1)
  | 0, attempt => by
      have h5 := h attempt
      unfold apiLoop
      rw [if_neg (by omega), if_pos (by omega), if_pos rfl]
      simp
  | r + 1, attempt => by
      have h5 := h attempt
      unfold apiLoop
      rw [if_neg (by omega), if_pos (by omega), if_neg (by omega)]
      rw [apiLoop_all_server_error gunzip parse responses h r (attempt + 1)]
      have e : attempt + 1 + r = attempt + (r + 1) := by omega
      rw [e]

/-- C1: for every upstream response sequence in which every attempt
returns a status of at least 500, `make_api_call` (at its default
budget of 3) performs exactly 3 attempts — one initial and two
retries — and then fails with the server error carrying the last
(third) attempt's decoded response body as detail. -/
theorem C1_server_errors_exhaust_three_attempts
    (gunzip : String → String) (parse : String → Option JsonVal)
    (method path : String) (payload : Option JsonVal)
    (params : Option (List (String × String))) (responses : Nat → HttpResponse)
    (h : ∀ i, 500 ≤ (responses i).status) :
    (make_api_call gunzip parse method path payload params responses 3).result =
      .raised (.serverError (responses 3).status
        (decode_response_body gunzip parse (responses 3))) ∧
    (make_api_call gunzip parse method path payload params responses 3).attempts = 3 := by
  have e := apiLoop_all_server_error gunzip parse responses h 2 1
  norm_num at e
  constructor
  · show (apiLoop gunzip parse responses 1 3).1 = _
    rw [e]
  · show (apiLoop gunzip parse responses 1 3).2 = 3
    rw [e]

/-- C1 witness: a concrete upstream that always answers 503 with body
`bad gateway` makes `make_api_call` fail after exactly 3 attempts with
that decoded body as detail. -/
theorem C1_witness :
    (make_api_call (fun s => s) (fun _ => none) "POST" "/ingest" none none
        (fun _ => ⟨503, none, "bad gateway"⟩) 3).result =
      .raised (.serverError 503 (.text "bad gateway")) ∧
    (make_api_call (fun s => s) (fun _ => none) "POST" "/ingest" none none
        (fun _ => ⟨503, none, "bad gateway"⟩) 3).attempts = 3 :=
  C1_server_errors_exhaust_three_attempts (fun s => s) (fun _ => none) "POST" "/ingest"
    none none (fun _ => ⟨503, none, "bad gateway"⟩) (fun _ => of_decide_eq_true rfl)

/-- C2: for every upstream response with a status in `[400, 499]` on the
first attempt, `make_api_call` fails immediately after exactly one
attempt with a `BadRequestError` carrying the decoded response body as
detail; the 4xx attempt is never retried. -/
theorem C2_client_error_fails_without_retry
    (gunzip : String → String) (parse : String → Option JsonVal)
    (method path : String) (payload : Option JsonVal)
    (params : Option (List (String × String))) (responses : Nat → HttpResponse)
    (h1 : 400 ≤ (responses 1).status) (h2 : (responses 1).status < 500) :
    (make_api_call gunzip parse method path payload params responses 3).result =
      .raised (.badRequest (decode_response_body gunzip parse (responses 1))) ∧
    (make_api_call gunzip parse method path payload params responses 3).attempts = 1 := by
  have e := apiLoop_client gunzip parse responses 1 3 (by omega) h1 h2
  constructor
  · show (apiLoop gunzip parse responses 1 3).1 = _
    rw [e]
  · show (apiLoop gunzip parse responses 1 3).2 = 1
    rw [e]

/-- C2 witness: a concrete upstream answering 404 with body `nf` makes
`make_api_call` fail at once, after a single attempt, carrying the
decoded body. -/
theorem C2_witness :
    (make_api_call (fun s => s) (fun _ => none) "GET" "/meters/m1" none none
        (fun _ => ⟨404, none, "nf"⟩) 3).result =
      .raised (.badRequest (.text "nf")) ∧
    (make_api_call (fun s => s) (fun _ => none) "GET" "/meters/m1" none none
        (fun _ => ⟨404, none, "nf"⟩) 3).attempts = 1 :=
  C2_client_error_fails_without_retry (fun s => s) (fun _ => none) "GET" "/meters/m1"
    none none (fun _ => ⟨404, none, "nf"⟩) (by decide) (by decide)

/-- C3 counterexample: `make_api_call` does not return the pair of
status code and decoded body — two upstreams that differ only in the
(sub-400) status code produce completely identical call outcomes, so
the status cannot be part of the returned value.  The source returns
only `response_body` (line 195). -/
theorem C3_counterexample :
    make_api_call (fun s => s) (fun _ => none) "GET" "/meters" none none
        (fun _ => ⟨200, none, "ok"⟩) 3 =
      make_api_call (fun s => s) (fun _ => none) "GET" "/meters" none none
        (fun _ => ⟨305, none, "ok"⟩) 3 ∧
    (200 : Nat) ≠ 305 :=
  ⟨rfl, by omega⟩

/-- C3 (amended): for every upstream response with status below 400 on
the first attempt, `make_api_call` returns the decoded body alone (the
status code is not part of the return value) and performs exactly one
attempt, i.e. zero retries. -/
theorem C3_success_returns_decoded_body
    (gunzip : String → String) (parse : String → Option JsonVal)
    (method path : String) (payload : Option JsonVal)
    (params : Option (List (String × String))) (responses : Nat → HttpResponse)
    (h : (responses 1).status < 400) :
    (make_api_call gunzip parse method path payload params responses 3).result =
      .returned (decode_response_body gunzip parse (responses 1)) ∧
    (make_api_call gunzip parse method path payload params responses 3).attempts = 1 := by
  have e := apiLoop_success gunzip parse responses 1 3 (by omega) h
  constructor
  · show (apiLoop gunzip parse responses 1 3).1 = _
    rw [e]
  · show (apiLoop gunzip parse responses 1 3).2 = 1
    rw [e]

/-- C3 witness: a concrete 200 response with body `ok` is returned
decoded after a single attempt. -/
theorem C3_witness :
    (make_api_call (fun s => s) (fun _ => none) "GET" "/meters" none none
        (fun _ => ⟨200, none, "ok"⟩) 3).result = .returned (.text "ok") ∧
    (make_api_call (fun s => s) (fun _ => none) "GET" "/meters" none none
        (fun _ => ⟨200, none, "ok"⟩) 3).attempts = 1 :=
  C3_success_returns_decoded_body (fun s => s) (fun _ => none) "GET" "/meters"
    none none (fun _ => ⟨200, none, "ok"⟩) (by decide)

/-- C4 (code evaluation at the failing input): on the event detail with
`tenantId = "t1"`, `meterApiName = "calls"`, `meterValue = 5` and one
extra key, `ingest` does set `customerId` from `tenantId` and stamps
`meterTimeInMillis` from the server clock, but its `dimensions` keep
`tenantId` — the source (line 131) excludes only `meterApiName` and
`meterValue`, while the claim (and the spec's stated intent) excludes
`tenantId` as well. -/
theorem C4_ingest_keeps_tenantId_in_dimensions :
    ingest 1700000000000
        [("tenantId", .str "t1"), ("meterApiName", .str "calls"),
         ("meterValue", .num 5), ("extra", .str "x")] =
      some ⟨"POST", "/ingest", some (.obj
        [("customerId", .str "t1"), ("meterApiName", .str "calls"),
         ("meterValue", .num 5), ("meterTimeInMillis", .num 1700000000000),
         ("dimensions", .obj [("tenantId", .str "t1"), ("extra", .str "x")])])⟩ ∧
    Dict.hasKey [("tenantId", JsonVal.str "t1"), ("extra", JsonVal.str "x")] "tenantId" =
      true :=
  ⟨rfl, rfl⟩

/-- C5 counterexample: the validation message does not name the missing
fields — a payload missing `label` and a payload missing `meterType`
are rejected with the identical fixed message. -/
theorem C5_counterexample :
    create_meter [("meterApiName", JsonVal.str "m"), ("meterType", JsonVal.str "t")] =
      create_meter [("label", JsonVal.str "l"), ("meterApiName", JsonVal.str "m")] ∧
    create_meter [("meterApiName", JsonVal.str "m"), ("meterType", JsonVal.str "t")] =
      .error "Required properties missing for create meter" :=
  ⟨rfl, rfl⟩

/-- C5 (amended): for every payload missing at least one required field,
each validating handler fails with its fixed `BadRequestError` message
naming the operation (not the individual missing fields), and no
outbound upstream call is made (an `Except.error` result is raised
before `make_api_call` is reached). -/
theorem C5_missing_fields_rejected (p u q : Dict) (meter_id : String)
    (hp : (["label", "meterApiName", "meterType"].all (p.hasKey ·)) = false)
    (hu : (["label", "meterApiName", "meterType"].all (u.hasKey ·)) = false)
    (hq : (["meterApiName", "id", "ingestionTimeRange"].all (q.hasKey ·)) = false) :
    create_meter p = .error "Required properties missing for create meter" ∧
    update_meter meter_id u = .error "Required properties missing for update meter" ∧
    cancel_usage q = .error "Required properties missing for cancelUsage request" := by
  refine ⟨?_, ?_, ?_⟩
  · simp [create_meter, hp]
  · simp [update_meter, hu]
  · simp [cancel_usage, hq]

/-- C5 witness: concrete payloads, each missing one required field, are
rejected by all three validating handlers with the fixed messages. -/
theorem C5_witness :
    create_meter [("meterApiName", .str "m"), ("meterType", .str "t")] =
      .error "Required properties missing for create meter" ∧
    update_meter "m1" [("label", .str "l"), ("meterType", .str "t")] =
      .error "Required properties missing for update meter" ∧
    cancel_usage [("meterApiName", .str "m"), ("id", .str "f1")] =
      .error "Required properties missing for cancelUsage request" :=
  C5_missing_fields_rejected
    [("meterApiName", .str "m"), ("meterType", .str "t")]
    [("label", .str "l"), ("meterType", .str "t")]
    [("meterApiName", .str "m"), ("id", .str "f1")]
    "m1" (by decide) (by decide) (by decide)

/-- C6: decoding a response never fails for content reasons — whenever
the (gzip-decompressed when so declared) body text is empty the result
is the empty JSON object, and whenever it is non-empty but not valid
JSON the result is the raw body text itself rather than an error. -/
theorem C6_decode_never_fails_on_content
    (gunzip : String → String) (parse : String → Option JsonVal)
    (r : HttpResponse) (b : String)
    (hb : (if r.contentEncoding = some "gzip" then gunzip r.body else r.body) = b) :
    (b = "" → decode_response_body gunzip parse r = .json (.obj [])) ∧
    (b ≠ "" → parse b = none → decode_response_body gunzip parse r = .text b) := by
  constructor
  · intro hempty
    simp only [decode_response_body]
    rw [hb, hempty]
    simp
  · intro hne hparse
    simp only [decode_response_body]
    rw [hb, if_pos hne, hparse]

/-- C6 witness: an empty uncompressed body decodes to the empty object,
and the non-JSON body `not json` passes through as raw text. -/
theorem C6_witness :
    decode_response_body (fun s => s) (fun _ => none) ⟨200, none, ""⟩ =
      .json (.obj []) ∧
    decode_response_body (fun s => s) (fun _ => none) ⟨200, none, "not json"⟩ =
      .text "not json" :=
  ⟨(C6_decode_never_fails_on_content (fun s => s) (fun _ => none)
      ⟨200, none, ""⟩ "" rfl).1 rfl,
   (C6_decode_never_fails_on_content (fun s => s) (fun _ => none)
      ⟨200, none, "not json"⟩ "not json" rfl).2 (by decide) rfl⟩

/-- C7 counterexample: with an empty query and a meter that resolves to
`api-1`, the outgoing usage payload's `timeRange` carries the key
`endTimeInSeconds` with value `null` — the key is present (serialized
as JSON `null`), not absent as the claim states.  The rest of the claim
(resolution via fetch-meter, `DAY` grouping, `now - 86400` start) is
visible in the same output. -/
theorem C7_counterexample :
    fetch_usage 1000000 [] [("meterApiName", JsonVal.str "api-1")] =
      .ok ⟨"POST", "/usage", some (.obj
        [("meterApiName", .str "api-1"),
         ("timeGroupingInterval", .str "DAY"),
         ("timeRange", .obj [("startTimeInSeconds", .num 913600),
                             ("endTimeInSeconds", .null)])])⟩ ∧
    Dict.hasKey [("startTimeInSeconds", JsonVal.num 913600),
        ("endTimeInSeconds", JsonVal.null)] "endTimeInSeconds" = true :=
  ⟨rfl, rfl⟩

/-- C7 (amended): for every `fetchUsage` query without `meterApiName`
(and without caller-supplied time settings), the handler resolves the
meter via the internal fetch-meter call; when that yields no
`meterApiName` it fails with the `BadRequestError`, and otherwise the
resolved name is used and the outgoing payload defaults to
`timeGroupingInterval = "DAY"` and a `timeRange` with
`startTimeInSeconds = now - 86400` and `endTimeInSeconds` present with
value `null` (not absent). -/
theorem C7_fetch_usage_resolves_and_defaults (now : Int) (query fetchedMeter : Dict)
    (h1 : (Dict.get query "meterApiName" .null).isNull = true)
    (h2 : query.hasKey "startTimeInSeconds" = false)
    (h3 : query.hasKey "endTimeInSeconds" = false)
    (h4 : query.hasKey "timeGroupingInterval" = false)
    (h5 : query.hasKey "timeRange" = false) :
    ((Dict.get fetchedMeter "meterApiName" .null).isNull = true →
      fetch_usage now query fetchedMeter =
        .error "meterApiName could not be fetched from meterId") ∧
    (∀ v : JsonVal, Dict.get fetchedMeter "meterApiName" .null = v → v.isNull = false →
      ∃ p : Dict,
        fetch_usage now query fetchedMeter = .ok ⟨"POST", "/usage", some (.obj p)⟩ ∧
        Dict.get? p "meterApiName" = some v ∧
        Dict.get? p "timeGroupingInterval" = some (.str "DAY") ∧
        Dict.get? p "timeRange" = some (.obj
          [("startTimeInSeconds", .num (now - 24 * 60 * 60)),
           ("endTimeInSeconds", .null)])) := by
  constructor
  · intro hm
    simp [fetch_usage, h1, hm]
  · intro v hv hnv
    have hst : Dict.get (query.set "meterApiName" v) "startTimeInSeconds"
        (.num (now - 86400)) = .num (now - 86400) := by
      unfold Dict.get
      rw [Dict.get?_set_ne query "startTimeInSeconds" "meterApiName" v (by decide),
        Dict.get?_eq_none query "startTimeInSeconds" h2]
      rfl
    have het : Dict.get (query.set "meterApiName" v) "endTimeInSeconds" .null = .null := by
      unfold Dict.get
      rw [Dict.get?_set_ne query "endTimeInSeconds" "meterApiName" v (by decide),
        Dict.get?_eq_none query "endTimeInSeconds" h3]
      rfl
    refine ⟨((query.set "meterApiName" v).setdefault "timeGroupingInterval"
        (.str "DAY")).setdefault "timeRange"
        (.obj [("startTimeInSeconds", .num (now - 24 * 60 * 60)),
               ("endTimeInSeconds", .null)]), ?_, ?_, ?_, ?_⟩
    · simp [fetch_usage, h1, hv, hnv, hst, het]
    · rw [Dict.get?_setdefault_ne _ "meterApiName" "timeRange" _ (by decide),
        Dict.get?_setdefault_ne _ "meterApiName" "timeGroupingInterval" _ (by decide),
        Dict.get?_set_self]
    · rw [Dict.get?_setdefault_ne _ "timeGroupingInterval" "timeRange" _ (by decide)]
      refine Dict.get?_setdefault_absent _ "timeGroupingInterval" _ ?_
      rw [Dict.hasKey_set_ne query "timeGroupingInterval" "meterApiName" v (by decide)]
      exact h4
    · refine Dict.get?_setdefault_absent _ "timeRange" _ ?_
      rw [Dict.hasKey_setdefault_ne _ "timeRange" "timeGroupingInterval" _ (by decide),
        Dict.hasKey_set_ne query "timeRange" "meterApiName" v (by decide)]
      exact h5

/-- C7 witness: the empty query against a meter whose `meterApiName` is
`api-1`, at `now = 1000000`, yields a usage payload with the resolved
name, `DAY` grouping, start `913600 = 1000000 - 86400`, and a
null-valued `endTimeInSeconds`. -/
theorem C7_witness :
    ∃ p : Dict,
      fetch_usage 1000000 [] [("meterApiName", JsonVal.str "api-1")] =
        .ok ⟨"POST", "/usage", some (.obj p)⟩ ∧
      Dict.get? p "meterApiName" = some (.str "api-1") ∧
      Dict.get? p "timeGroupingInterval" = some (.str "DAY") ∧
      Dict.get? p "timeRange" = some (.obj
        [("startTimeInSeconds", .num 913600), ("endTimeInSeconds", .null)]) :=
  (C7_fetch_usage_resolves_and_defaults 1000000 [] [("meterApiName", JsonVal.str "api-1")]
      rfl rfl rfl rfl rfl).2 (.str "api-1") rfl rfl

/-- C8: for every `cancelUsage` payload containing the required fields,
the outgoing upstream payload maps `type` to `by_property_filter_out`,
overriding any caller-supplied value for `type`. -/
theorem C8_cancel_usage_forces_type (payload : Dict)
    (h : (["meterApiName", "id", "ingestionTimeRange"].all (payload.hasKey ·)) = true) :
    ∃ p : Dict,
      cancel_usage payload =
        .ok ⟨"POST", "/ingest-snapshot/custom-filtering-rules", some (.obj p)⟩ ∧
      Dict.get? p "type" = some (.str "by_property_filter_out") := by
  refine ⟨payload.set "type" (.str "by_property_filter_out"), ?_,
    Dict.get?_set_self payload "type" (.str "by_property_filter_out")⟩
  simp [cancel_usage, h]

/-- C8 witness: a payload that even supplies its own `type = "other"`
still goes out with `type = "by_property_filter_out"`. -/
theorem C8_witness :
    ∃ p : Dict,
      cancel_usage [("meterApiName", .str "calls"), ("id", .str "f1"),
          ("ingestionTimeRange", .obj []), ("type", .str "other")] =
        .ok ⟨"POST", "/ingest-snapshot/custom-filtering-rules", some (.obj p)⟩ ∧
      Dict.get? p "type" = some (.str "by_property_filter_out") :=
  C8_cancel_usage_forces_type
    [("meterApiName", .str "calls"), ("id", .str "f1"),
     ("ingestionTimeRange", .obj []), ("type", .str "other")] (by decide)

/-- C9 counterexample: a payload that is present but empty (the empty
dict, which is falsy in Python) is sent with no body at all, even
though its JSON serialization exists — the source's `if payload` test
is truthiness, not presence. -/
theorem C9_counterexample :
    (make_api_call (fun s => s) (fun _ => none) "POST" "/meters"
        (some (JsonVal.obj [])) none (fun _ => ⟨201, none, ""⟩) 3).request.body =
      none ∧
    some (JsonVal.dumps (JsonVal.obj [])) ≠ none :=
  ⟨rfl, by decide⟩

/-- C9 (amended): `make_api_call` sends the JSON serialization of the
payload as the request body exactly when the payload is present and
truthy; when the payload is absent — or present but falsy, such as an
empty dict — no body is sent at all. -/
theorem C9_payload_sent_iff_truthy
    (gunzip : String → String) (parse : String → Option JsonVal)
    (method path : String) (params : Option (List (String × String)))
    (responses : Nat → HttpResponse) (payload : Option JsonVal) :
    (∀ v : JsonVal, payload = some v → v.truthy = true →
      (make_api_call gunzip parse method path payload params responses 3).request.body =
        some (JsonVal.dumps v)) ∧
    ((payload = none ∨ ∃ v, payload = some v ∧ v.truthy = false) →
      (make_api_call gunzip parse method path payload params responses 3).request.body =
        none) := by
  constructor
  · rintro v rfl hv
    show payload_str (some v) = some (JsonVal.dumps v)
    simp [payload_str, hv]
  · rintro (rfl | ⟨v, rfl, hv⟩)
    · rfl
    · show payload_str (some v) = none
      simp [payload_str, hv]

/-- C9 witness: a non-empty payload goes out serialized; an absent
payload goes out with no body. -/
theorem C9_witness :
    (make_api_call (fun s => s) (fun _ => none) "POST" "/meters"
        (some (JsonVal.obj [("a", JsonVal.num 1)])) none
        (fun _ => ⟨201, none, ""⟩) 3).request.body = some "\x7b\"a\": 1\x7d" ∧
    (make_api_call (fun s => s) (fun _ => none) "GET" "/meters" none none
        (fun _ => ⟨200, none, ""⟩) 3).request.body = none :=
  ⟨(C9_payload_sent_iff_truthy (fun s => s) (fun _ => none) "POST" "/meters" none
      (fun _ => ⟨201, none, ""⟩) (some (JsonVal.obj [("a", JsonVal.num 1)]))).1
      (JsonVal.obj [("a", JsonVal.num 1)]) rfl rfl,
   (C9_payload_sent_iff_truthy (fun s => s) (fun _ => none) "GET" "/meters" none
      (fun _ => ⟨200, none, ""⟩) none).2 (Or.inl rfl)⟩

/-- C10: a response declaring gzip content-encoding whose body is the
compression of a valid JSON text decodes identically to the same JSON
text sent uncompressed without the header, for any compression scheme
whose decompression inverts it (modelling the external gzip library). -/
theorem C10_gzip_decodes_like_plain
    (gz gunzip : String → String) (parse : String → Option JsonVal)
    (hinv : ∀ s, gunzip (gz s) = s) (status : Nat) (b : String) (j : JsonVal)
    (_hj : parse b = some j) :
    decode_response_body gunzip parse ⟨status, some "gzip", gz b⟩ =
      decode_response_body gunzip parse ⟨status, none, b⟩ := by
  simp [decode_response_body, hinv b]

/-- C10 witness: with the identity as the (invertible) compression and
a parser accepting the body `[]`, both the gzip-marked and the plain
response decode to the same value. -/
theorem C10_witness :
    decode_response_body (fun s => s)
        (fun s => if s = "[]" then some (JsonVal.arr []) else none)
        ⟨200, some "gzip", "[]"⟩ =
      decode_response_body (fun s => s)
        (fun s => if s = "[]" then some (JsonVal.arr []) else none)
        ⟨200, none, "[]"⟩ :=
  C10_gzip_decodes_like_plain (fun s => s) (fun s => s)
    (fun s => if s = "[]" then some (JsonVal.arr []) else none)
    (fun _ => rfl) 200 "[]" (JsonVal.arr []) rfl
